import Mathlib

/-!
Verification development for the zeno_hub backend chart pipeline.

The definitions below shallowly embed the chart-data subsystem:
`zeno_backend/processing/chart.py` (the five chart strategies and the
dispatcher) and `zeno_backend/database/select.py` (the `slices` catalogue
lookup).  Supporting classes (`zeno_backend/classes/chart.py`,
`classes/filter.py`, `classes/metric.py`, `classes/slice.py`) and the
metric evaluator (`zeno_backend/processing/metrics/map.py`) are not part
of the provided sources; where they are needed they are modelled from the
specification and marked as such in their doc comments.

Conventions of the embedding:
* Python lists become `List`, `None`-able values become `Option`.
* A strategy's JSON result `json.dumps(\x7b"table": elements\x7d)` is
  represented by the `elements` list itself (`List Record`); the empty
  payload `table: []` is the empty list.
* A Python runtime error (such as the `AttributeError` that the heatmap
  strategy can hit on its `# type: ignore` attribute accesses) is `none`
  in an `Option`-valued result.
* Object mutation (the heatmap strategy mutates the join field of the
  resolved y slices) is made explicit by threading the list of y-axis
  values through the loops and returning its final state.
-/

namespace ZenoHub

/-- Join operators of predicate groups.  Modelled from the spec (§3,
Predicate Group): `AND`, `OR`, or `OMITTED` meaning "no join"; the class
`zeno_backend/classes/filter.py` is not among the sources. -/
inductive Join where
  | AND
  | OR
  | OMITTED
deriving BEq, DecidableEq, Repr

/-- Comparison operators of leaf predicates.  Modelled from the spec (§3,
Predicate: "equality, ordering, substring/regex match, set membership");
only the equality and ordering operators are represented here, which is
all the stored filters of the claims use.  The class
`zeno_backend/classes/filter.py` is not among the sources. -/
inductive Operation where
  | EQUAL
  | DIFFERENT
  | GT
  | LT
  | GTE
  | LTE
deriving BEq, DecidableEq, Repr

/-- A literal cell value of the project data table: text, numeric, or
boolean, per the spec's value types (§3, Column). -/
inductive CellV where
  | str (s : String)
  | num (q : Rat)
  | boolv (b : Bool)
deriving BEq, DecidableEq, Repr

/-- One element of a predicate group: either a leaf predicate (column,
operator, literal, and the join connecting it to the preceding sibling)
or a nested group.  Modelled from the spec (§3, Predicate / Predicate
Group); `zeno_backend/classes/filter.py` is not among the sources. -/
inductive FilterElem where
  | pred (column : String) (operation : Operation) (value : CellV) (join : Join)
  | group (predicates : List FilterElem) (join : Join)

/-- A predicate group: an ordered sequence of children and a join field.
Mirrors `FilterPredicateGroup(predicates=…, join=…)` as constructed
throughout `chart.py` and `select.py`. -/
structure FilterPredicateGroup where
  predicates : List FilterElem
  join : Join

/-- Embed a `FilterPredicateGroup` as a child element of another group,
as the heatmap strategy does when it nests two slices' groups inside a
synthetic parent. -/
def FilterElem.ofGroup (g : FilterPredicateGroup) : FilterElem :=
  .group g.predicates g.join

/-- The join field of a child element (a leaf's or nested group's own
join, which connects it to the preceding sibling). -/
def FilterElem.joinOf : FilterElem → Join
  | .pred _ _ _ j => j
  | .group _ j => j

/-- A row of a project's data table: an association of column ids to cell
values.  Rows only appear inside the spec-modelled metric evaluator. -/
def Row : Type := List (String × CellV)

/-- Evaluate one comparison operator on a stored cell value and a
predicate literal.  Ordering operators are only defined on numeric
values, per the spec's operator/value-type compatibility (§4.2). -/
def opEval (op : Operation) (cell lit : CellV) : Bool :=
  match op with
  | .EQUAL => cell == lit
  | .DIFFERENT => !(cell == lit)
  | .GT => match cell, lit with
    | .num a, .num b => decide (b < a)
    | _, _ => false
  | .LT => match cell, lit with
    | .num a, .num b => decide (a < b)
    | _, _ => false
  | .GTE => match cell, lit with
    | .num a, .num b => decide (b ≤ a)
    | _, _ => false
  | .LTE => match cell, lit with
    | .num a, .num b => decide (a ≤ b)
    | _, _ => false

/-- Whether a row satisfies a leaf predicate: the referenced column must
exist in the row and its value must satisfy the operator. -/
def evalPred (row : Row) (column : String) (op : Operation) (lit : CellV) : Bool :=
  match (row : List (String × CellV)).lookup column with
  | some cell => opEval op cell lit
  | none => false

/-- Combine the truth value of the preceding siblings with the current
child's value using the current child's join field (§4.2: children are
AND/OR-joined; an `OMITTED` join contributes no boolean glue, so the
current child stands alone). -/
def joinApply (j : Join) (acc cur : Bool) : Bool :=
  match j with
  | .AND => acc && cur
  | .OR => acc || cur
  | .OMITTED => cur

mutual

/-- Row-level semantics of one predicate-tree element.  Modelled from the
spec (§4.2): this is what the compiled SQL fragment of the element
matches, stated directly on rows (the filter compiler itself,
`zeno_backend/processing/filtering.py`, is not among the sources). -/
def rowMatchesElem (row : Row) : FilterElem → Bool
  | .pred c op v _ => evalPred row c op v
  | .group ps _ => rowMatchesFirst row ps

/-- Semantics of a child sequence: an empty sequence is universally true
(§4.2: an empty group matches all rows); otherwise the first child's own
value starts the fold. -/
def rowMatchesFirst (row : Row) : List FilterElem → Bool
  | [] => true
  | e :: rest => rowMatchesRest row (rowMatchesElem row e) rest

/-- Fold the remaining children onto the accumulated truth value, each
connected by its own join field. -/
def rowMatchesRest (row : Row) (acc : Bool) : List FilterElem → Bool
  | [] => acc
  | e :: rest => rowMatchesRest row (joinApply e.joinOf acc (rowMatchesElem row e)) rest

end

/-- Row-level semantics of a whole predicate group (the root's own join
field carries no meaning of its own, §3). -/
def rowMatchesGroup (row : Row) (g : FilterPredicateGroup) : Bool :=
  rowMatchesFirst row g.predicates

/-- A metric of the catalogue.  Modelled from usage in the sources and
the spec (§3, Metric: id, display name, reduction kind, input columns);
`zeno_backend/classes/metric.py` is not among the sources. -/
structure Metric where
  id : Int
  name : String
  type : String
  columns : List String
deriving BEq, DecidableEq, Repr

/-- The result of one metric evaluation: a nullable scalar plus the
support size.  Mirrors `GroupMetric` of `classes/base.py`. -/
structure GroupMetric where
  metric : Option Rat
  size : Nat
deriving BEq, DecidableEq, Repr

/-- A named slice.  Modelled from usage in the sources and the spec (§3,
Slice); `zeno_backend/classes/slice.py` is not among the sources. -/
structure Slice where
  id : Int
  slice_name : String
  folder_id : Option Int
  filter_predicates : FilterPredicateGroup

/-- A stored row of the `slices` database table, as read by
`select.slices`: id, name, folder, owning project, and the persisted
filter JSON (a predicate group whose stored join field may be
anything). -/
structure SliceRow where
  id : Int
  name : String
  folder_id : Option Int
  project_uuid : String
  filter : FilterPredicateGroup

/-- The `Slice` that `select.slices` builds from a stored row: the stored
predicates are kept and the root join is rebuilt as `OMITTED`
(`select.py` line 467-470). -/
def rowToSlice (r : SliceRow) : Slice :=
  { id := r.id
    slice_name := r.name
    folder_id := r.folder_id
    filter_predicates := { predicates := r.filter.predicates, join := Join.OMITTED } }

/-- `select.slices(project, ids)` from `database/select.py`, over a store
of slice rows.  The second component counts the read queries issued to
the store: the early return for an explicit empty id list issues none,
both query branches issue exactly one. -/
def slices (rows : List SliceRow) (project : String) (ids : Option (List Int)) :
    List Slice × Nat :=
  match ids with
  | some l =>
    if l.length = 0 then ([], 0)
    else
      ((rows.filter (fun r => r.project_uuid == project && l.contains r.id)).map rowToSlice, 1)
  | none => ((rows.filter (fun r => r.project_uuid == project)).map rowToSlice, 1)

/-- The sentinel count pseudo-metric `Metric(id=-1, name="count",
type="count", columns=[])` constructed in `chart.py`. -/
def countMetric : Metric :=
  { id := -1, name := "count", type := "count", columns := [] }

/-- The sentinel "all instances" slice `Slice(id=-1, slice_name="All
instances", filter_predicates=FilterPredicateGroup(predicates=[],
join=Join.OMITTED))` constructed in `chart.py`. -/
def allInstancesSlice : Slice :=
  { id := -1
    slice_name := "All instances"
    folder_id := none
    filter_predicates := { predicates := [], join := Join.OMITTED } }

/-- The environment a chart strategy works against: the project id, the
result of `metrics(project)`, the stored slice rows consulted by
`slices(project, …)`, and the metric evaluator `metric_map` (whose
source, `processing/metrics/map.py`, is external to the strategies). -/
structure Env where
  project : String
  metricsTable : List Metric
  sliceRows : List SliceRow
  metric_map : Metric → String → Option FilterPredicateGroup → GroupMetric

/-- Metric resolution shared by `xyc_data` (chart.py lines 38-41) and
`heatmap_data` (lines 258-261): the first catalogue metric with the
declared id, falling back to the sentinel count metric. -/
def resolve_metric (env : Env) (id : Int) : Metric :=
  (env.metricsTable.find? (fun x => x.id == id)).getD countMetric

/-- Metric-list resolution shared by `table_data` (chart.py lines 91-96),
`beeswarm_data` (lines 147-152) and `radar_data` (lines 202-207): keep
the members of the catalogue extended by the count sentinel whose id is
declared. -/
def selected_metrics (env : Env) (ids : List Int) : List Metric :=
  (env.metricsTable ++ [countMetric]).filter (fun m => ids.contains m.id)

/-- Slice-list resolution shared by all strategies (e.g. chart.py lines
43-53): fetch the declared ids from the catalogue, and append the
sentinel "all instances" slice when `-1` is among the declared ids. -/
def selected_slices (env : Env) (ids : List Int) : List Slice :=
  (slices env.sliceRows env.project (some ids)).1 ++
    (if ids.contains (-1 : Int) then [allInstancesSlice] else [])

/-- Channel enum `SlicesOrModels` of `classes/chart.py` (not among the
sources; modelled from usage and the spec §3). -/
inductive SlicesOrModels where
  | SLICES
  | MODELS
deriving BEq, DecidableEq, Repr

/-- Channel enum `SlicesMetricsOrModels` of `classes/chart.py` (not among
the sources; modelled from usage and the spec §3). -/
inductive SlicesMetricsOrModels where
  | SLICES
  | MODELS
  | METRICS
deriving BEq, DecidableEq, Repr

/-- Chart type enum (spec §3: BAR, LINE, TABLE, BEESWARM, RADAR,
HEATMAP); `classes/chart.py` is not among the sources. -/
inductive ChartType where
  | BAR
  | LINE
  | TABLE
  | BEESWARM
  | RADAR
  | HEATMAP
deriving BEq, DecidableEq, Repr

/-- Parameters of BAR/LINE charts (`XCParameters`); modelled from usage
in `xyc_data` and the spec §3. -/
structure XCParameters where
  slices : List Int
  metric : Int
  models : List String
  color_channel : SlicesOrModels
  x_channel : SlicesOrModels

/-- Parameters of TABLE charts; modelled from usage in `table_data` and
the spec §3. -/
structure TableParameters where
  metrics : List Int
  slices : List Int
  models : List String
  y_channel : SlicesOrModels
  x_channel : SlicesMetricsOrModels

/-- Parameters of BEESWARM charts; modelled from usage in
`beeswarm_data` and the spec §3. -/
structure BeeswarmParameters where
  metrics : List Int
  slices : List Int
  models : List String
  y_channel : SlicesOrModels
  color_channel : SlicesOrModels

/-- Parameters of RADAR charts; modelled from usage in `radar_data` and
the spec §3. -/
structure RadarParameters where
  metrics : List Int
  slices : List Int
  models : List String
  axis_channel : SlicesMetricsOrModels
  layer_channel : SlicesOrModels

/-- One entry of a heatmap axis value list: a slice id when the channel
is slice-valued, a raw label (e.g. a model name) otherwise.  Modelled
from usage in `heatmap_data` and the spec §4.4. -/
inductive HeatValue where
  | id (i : Int)
  | label (s : String)
deriving BEq, DecidableEq, Repr

/-- Parameters of HEATMAP charts; modelled from usage in `heatmap_data`
and the spec §3. -/
structure HeatmapParameters where
  x_values : List HeatValue
  y_values : List HeatValue
  model : String
  metric : Int
  x_channel : SlicesOrModels
  y_channel : SlicesOrModels

/-- The type-specific parameter payload of a chart (the Python side is a
union checked via `isinstance` in each strategy). -/
inductive ChartParameters where
  | xc (p : XCParameters)
  | table (p : TableParameters)
  | beeswarm (p : BeeswarmParameters)
  | radar (p : RadarParameters)
  | heatmap (p : HeatmapParameters)

/-- A chart (`classes/chart.py`, not among the sources; modelled from
usage and the spec §3). -/
structure Chart where
  id : Int
  name : String
  type : ChartType
  parameters : ChartParameters

/-- A JSON value appearing in a chart payload record. -/
inductive PValue where
  | str (s : String)
  | int (i : Int)
  | rat (q : Rat)
  | null
deriving BEq, DecidableEq, Repr

/-- The nullable metric scalar as a payload value. -/
def pvOfMetric : Option Rat → PValue
  | some q => .rat q
  | none => .null

/-- One flat payload record: an ordered association of the fixed field
names to values, mirroring the Python dict literals of `chart.py`. -/
def Record : Type := List (String × PValue)

/-- The record appended by `xyc_data` per (slice, model) combination
(chart.py lines 61-72). -/
def xycRecord (p : XCParameters) (s : Slice) (model : String) (gm : GroupMetric) : Record :=
  [("x_value", if p.x_channel == SlicesOrModels.SLICES then .str s.slice_name else .str model),
   ("color_value", if p.color_channel == SlicesOrModels.MODELS then .str model else .str s.slice_name),
   ("y_value", pvOfMetric gm.metric),
   ("size", .int gm.size)]

/-- `xyc_data` of `processing/chart.py`: the strategy for BAR and LINE
charts.  Returns the payload's record list (the Python function returns
it JSON-encoded under the key "table"). -/
def xyc_data (env : Env) (chart : Chart) : List Record :=
  match chart.parameters with
  | .xc params =>
    let selected_metric := resolve_metric env params.metric
    let ss := selected_slices env params.slices
    ss.flatMap (fun current_slice =>
      params.models.map (fun model =>
        xycRecord params current_slice model
          (env.metric_map selected_metric model (some current_slice.filter_predicates))))
  | _ => []

/-- The record appended by `table_data` per (metric, slice, model)
combination (chart.py lines 116-129). -/
def tableRecord (p : TableParameters) (m : Metric) (s : Slice) (model : String)
    (gm : GroupMetric) : Record :=
  [("x_value",
     if p.x_channel == SlicesMetricsOrModels.SLICES then PValue.int s.id
     else if p.x_channel == SlicesMetricsOrModels.MODELS then PValue.str model
     else PValue.int m.id),
   ("fixed_value", pvOfMetric gm.metric),
   ("y_value",
     if p.y_channel == SlicesOrModels.SLICES then PValue.int s.id else PValue.str model),
   ("size", .int gm.size)]

/-- `table_data` of `processing/chart.py`: the strategy for TABLE
charts. -/
def table_data (env : Env) (chart : Chart) : List Record :=
  match chart.parameters with
  | .table params =>
    let sm := selected_metrics env params.metrics
    let ss := selected_slices env params.slices
    sm.flatMap (fun current_metric =>
      ss.flatMap (fun current_slice =>
        params.models.map (fun model =>
          tableRecord params current_metric current_slice model
            (env.metric_map current_metric model (some current_slice.filter_predicates)))))
  | _ => []

/-- The record appended by `beeswarm_data` per (metric, slice, model)
combination (chart.py lines 172-184). -/
def beeswarmRecord (p : BeeswarmParameters) (m : Metric) (s : Slice) (model : String)
    (gm : GroupMetric) : Record :=
  [("color_value",
     if p.color_channel == SlicesOrModels.SLICES then PValue.str s.slice_name
     else PValue.str model),
   ("x_value", pvOfMetric gm.metric),
   ("y_value",
     if p.y_channel == SlicesOrModels.SLICES then PValue.str s.slice_name
     else PValue.str model),
   ("size", .int gm.size),
   ("metric", .str m.name)]

/-- `beeswarm_data` of `processing/chart.py`: the strategy for BEESWARM
charts. -/
def beeswarm_data (env : Env) (chart : Chart) : List Record :=
  match chart.parameters with
  | .beeswarm params =>
    let sm := selected_metrics env params.metrics
    let ss := selected_slices env params.slices
    sm.flatMap (fun current_metric =>
      ss.flatMap (fun current_slice =>
        params.models.map (fun model =>
          beeswarmRecord params current_metric current_slice model
            (env.metric_map current_metric model (some current_slice.filter_predicates)))))
  | _ => []

/-- The record appended by `radar_data` per (metric, slice, model)
combination (chart.py lines 227-240). -/
def radarRecord (p : RadarParameters) (m : Metric) (s : Slice) (model : String)
    (gm : GroupMetric) : Record :=
  [("axis_value",
     if p.axis_channel == SlicesMetricsOrModels.SLICES then PValue.str s.slice_name
     else if p.axis_channel == SlicesMetricsOrModels.MODELS then PValue.str model
     else PValue.str m.name),
   ("fixed_value", pvOfMetric gm.metric),
   ("layer_value",
     if p.layer_channel == SlicesOrModels.SLICES then PValue.str s.slice_name
     else PValue.str model),
   ("size", .int gm.size)]

/-- `radar_data` of `processing/chart.py`: the strategy for RADAR
charts. -/
def radar_data (env : Env) (chart : Chart) : List Record :=
  match chart.parameters with
  | .radar params =>
    let sm := selected_metrics env params.metrics
    let ss := selected_slices env params.slices
    sm.flatMap (fun current_metric =>
      ss.flatMap (fun current_slice =>
        params.models.map (fun model =>
          radarRecord params current_metric current_slice model
            (env.metric_map current_metric model (some current_slice.filter_predicates)))))
  | _ => []

/-- One value iterated over by a heatmap axis: a resolved `Slice` when
the channel is slice-valued, the raw declared value otherwise. -/
inductive HAxis where
  | slice (s : Slice)
  | value (v : HeatValue)

/-- The slice ids of a heatmap axis value list, as handed to
`slices(project, params.x_values)`.  When the channel is slice-valued
the declared list holds exactly ids, which is the only case in which the
source passes the list to the catalogue query. -/
def heatIds (l : List HeatValue) : List Int :=
  l.filterMap (fun v => match v with | .id i => some i | .label _ => none)

/-- Resolution of one heatmap axis (chart.py lines 262-290): when the
channel is slice-valued, look the declared ids up in the slice catalogue
and append the sentinel "all instances" slice if `-1` is declared;
otherwise iterate the raw declared values. -/
def heatAxisValues (env : Env) (isSlice : Bool) (declared : List HeatValue) : List HAxis :=
  if isSlice then
    (slices env.sliceRows env.project (some (heatIds declared))).1.map HAxis.slice ++
      (if declared.contains (HeatValue.id (-1)) then [HAxis.slice allInstancesSlice] else [])
  else declared.map HAxis.value

/-- The Python assignment `current_y.filter_predicates.join = Join.AND`
(chart.py line 296): succeeds on a slice, fails with `AttributeError` on
a raw value. -/
def setJoinAND : HAxis → Option HAxis
  | .slice s =>
    some (.slice { s with filter_predicates := { s.filter_predicates with join := Join.AND } })
  | .value _ => none

/-- The Python attribute access `current.filter_predicates` (chart.py
lines 309-310): succeeds on a slice, fails with `AttributeError` on a
raw value. -/
def axisGroup : HAxis → Option FilterPredicateGroup
  | .slice s => some s.filter_predicates
  | .value _ => none

/-- A raw heatmap axis value rendered into the payload. -/
def pvOfHeatValue : HeatValue → PValue
  | .id i => .int i
  | .label s => .str s

/-- The axis label of a heatmap payload record (chart.py lines 317-319
and 321-323): the slice name when the channel is slice-valued, the raw
value otherwise.  The two mismatched combinations (flag says slice but
the value is raw, or conversely) fail at runtime in the source and are
`none` here; they are unreachable from `heatAxisValues`. -/
def axisOut (isSlice : Bool) (a : HAxis) : Option PValue :=
  if isSlice then
    match a with
    | .slice s => some (.str s.slice_name)
    | .value _ => none
  else
    match a with
    | .value v => some (pvOfHeatValue v)
    | .slice _ => none

/-- The record appended by `heatmap_data` per (x, y) cell (chart.py
lines 315-326). -/
def heatRecord (xSlice ySlice : Bool) (x y : HAxis) (gm : GroupMetric) : Option Record := do
  let xv ← axisOut xSlice x
  let yv ← axisOut ySlice y
  some [("x_value", xv),
        ("fixed_value", pvOfMetric gm.metric),
        ("y_value", yv),
        ("size", PValue.int gm.size)]

/-- One iteration of the heatmap cell loop body (chart.py lines
294-326).  When both channels are slice-valued the source first mutates
the y value's join field to `AND` and then calls the evaluator WITHOUT a
filter argument; otherwise it calls the evaluator with a synthetic group
holding both values' predicate groups (an attribute access that fails on
a raw value).  Returns the appended record and the (possibly mutated)
y value. -/
def heatCell (E : Metric → String → Option FilterPredicateGroup → GroupMetric)
    (m : Metric) (model : String) (xSlice ySlice : Bool) (x y : HAxis) :
    Option (Record × HAxis) :=
  if xSlice && ySlice then do
    let y' ← setJoinAND y
    let gm := E m model none
    let r ← heatRecord xSlice ySlice x y' gm
    some (r, y')
  else do
    let gx ← axisGroup x
    let gy ← axisGroup y
    let gm := E m model
      (some { predicates := [FilterElem.ofGroup gx, FilterElem.ofGroup gy]
              join := Join.OMITTED })
    let r ← heatRecord xSlice ySlice x y gm
    some (r, y)

/-- The inner heatmap loop over the y-axis values for one fixed x value,
threading the y list through to make the mutation of chart.py line 296
explicit. -/
def heatInner (E : Metric → String → Option FilterPredicateGroup → GroupMetric)
    (m : Metric) (model : String) (xSlice ySlice : Bool) (x : HAxis) :
    List HAxis → Option (List Record × List HAxis)
  | [] => some ([], [])
  | y :: ys => do
    let (r, y') ← heatCell E m model xSlice ySlice x y
    let (rs, ys') ← heatInner E m model xSlice ySlice x ys
    some (r :: rs, y' :: ys')

/-- The outer heatmap loop over the x-axis values (chart.py lines
292-326), returning the accumulated records and the final state of the
y-axis value list. -/
def heatOuter (E : Metric → String → Option FilterPredicateGroup → GroupMetric)
    (m : Metric) (model : String) (xSlice ySlice : Bool) :
    List HAxis → List HAxis → Option (List Record × List HAxis)
  | [], ys => some ([], ys)
  | x :: xs, ys => do
    let (rs₁, ys') ← heatInner E m model xSlice ySlice x ys
    let (rs₂, ys'') ← heatOuter E m model xSlice ySlice xs ys'
    some (rs₁ ++ rs₂, ys'')

/-- `heatmap_data` of `processing/chart.py` including its final loop
state: the payload records together with the final state of the resolved
y-axis values (whose join fields the source mutates in place).  `none`
models a Python runtime error escaping the function. -/
def heatmap_run (env : Env) (chart : Chart) : Option (List Record × List HAxis) :=
  match chart.parameters with
  | .heatmap params =>
    let selected_metric := resolve_metric env params.metric
    let x_slice := params.x_channel == SlicesOrModels.SLICES
    let y_slice := params.y_channel == SlicesOrModels.SLICES
    let selected_x := heatAxisValues env x_slice params.x_values
    let selected_y := heatAxisValues env y_slice params.y_values
    heatOuter env.metric_map selected_metric params.model x_slice y_slice
      selected_x selected_y
  | _ => some ([], [])

/-- `heatmap_data` of `processing/chart.py`: the payload of the HEATMAP
strategy. -/
def heatmap_data (env : Env) (chart : Chart) : Option (List Record) :=
  (heatmap_run env chart).map Prod.fst

/-- `chart_data` of `processing/chart.py`: the dispatcher from chart
type to strategy, with the final soft-fail branch returning the empty
payload. -/
def chart_data (env : Env) (chart : Chart) : Option (List Record) :=
  if chart.type == ChartType.BAR || chart.type == ChartType.LINE then
    some (xyc_data env chart)
  else if chart.type == ChartType.TABLE then
    some (table_data env chart)
  else if chart.type == ChartType.BEESWARM then
    some (beeswarm_data env chart)
  else if chart.type == ChartType.RADAR then
    some (radar_data env chart)
  else if chart.type == ChartType.HEATMAP then
    heatmap_data env chart
  else
    some []

/-- Modelled from the spec: the Metric Evaluator `metric_map` of
`zeno_backend/processing/metrics/map.py`, which is not among the sources
(§4.3: `evaluate(project, metric, model, filter) -> GroupMetric`).  The
project's data table is `rows`; the evaluator filters it through the
row-level semantics of the compiled filter (a missing filter means all
rows) and reduces: the sentinel count pseudo-metric — and any metric
without input columns — yields a null scalar with the row count as
`size`, a mean-kind metric averages its first input column over the
filtered rows (null on an empty value set), any other reduction kind is
left null; `size` is always the filtered row count. -/
def specMetricMap (rows : List Row) (metric : Metric) (_model : String)
    (filter : Option FilterPredicateGroup) : GroupMetric :=
  let matched := match filter with
    | none => rows
    | some g => rows.filter (fun r => rowMatchesGroup r g)
  if metric.id == (-1 : Int) || metric.type == "count" then
    { metric := none, size := matched.length }
  else
    match metric.columns.head? with
    | none => { metric := none, size := matched.length }
    | some col =>
      if metric.type == "mean" then
        let vals := matched.filterMap (fun r =>
          match (r : List (String × CellV)).lookup col with
          | some (.num q) => some q
          | _ => none)
        match vals with
        | [] => { metric := none, size := matched.length }
        | _ => { metric := some (vals.foldl (· + ·) 0 / (vals.length : Rat)),
                 size := matched.length }
      else { metric := none, size := matched.length }

/-- Whether a chart's parameter payload is of the type expected by the
strategy its chart type dispatches to (the Python `isinstance` guard at
the top of each strategy). -/
def paramsMatch : ChartType → ChartParameters → Bool
  | .BAR, .xc _ => true
  | .LINE, .xc _ => true
  | .TABLE, .table _ => true
  | .BEESWARM, .beeswarm _ => true
  | .RADAR, .radar _ => true
  | .HEATMAP, .heatmap _ => true
  | _, _ => false

/-! ### Cross-product helpers -/

/-- The cross product of two lists, first component outer. -/
def prod2 (as : List α) (bs : List β) : List (α × β) :=
  as.flatMap (fun a => bs.map (fun b => (a, b)))

/-- The cross product of three lists, first component outer, last
component inner. -/
def prod3 (as : List α) (bs : List β) (cs : List γ) : List (α × β × γ) :=
  as.flatMap (fun a => bs.flatMap (fun b => cs.map (fun c => (a, b, c))))

theorem flatMap_map_length (f : α → β → γ) (as : List α) (bs : List β) :
    (as.flatMap (fun a => bs.map (f a))).length = as.length * bs.length := by
  induction as with
  | nil => simp
  | cons a as ih =>
    simp only [List.flatMap_cons, List.length_append, List.length_map, ih, List.length_cons]
    ring

theorem prod2_map (f : α → β → γ) (as : List α) (bs : List β) :
    (prod2 as bs).map (fun p => f p.1 p.2) = as.flatMap (fun a => bs.map (f a)) := by
  induction as with
  | nil => rfl
  | cons a as ih =>
    simp only [prod2, List.flatMap_cons, List.map_append, List.map_map] at *
    rw [ih]
    rfl

theorem prod2_length (as : List α) (bs : List β) :
    (prod2 as bs).length = as.length * bs.length :=
  flatMap_map_length (fun a b => (a, b)) as bs

theorem prod3_map (f : α → β → γ → δ) (as : List α) (bs : List β) (cs : List γ) :
    (prod3 as bs cs).map (fun p => f p.1 p.2.1 p.2.2) =
      as.flatMap (fun a => bs.flatMap (fun b => cs.map (f a b))) := by
  induction as with
  | nil => rfl
  | cons a as ih =>
    simp only [prod3, List.flatMap_cons, List.map_append] at *
    rw [ih, List.map_flatMap]
    simp only [List.map_map]
    rfl

theorem prod3_length (as : List α) (bs : List β) (cs : List γ) :
    (prod3 as bs cs).length = as.length * (bs.length * cs.length) := by
  induction as with
  | nil => simp [prod3]
  | cons a as ih =>
    simp only [prod3, List.flatMap_cons, List.length_append] at *
    rw [ih, flatMap_map_length (fun b c => (a, b, c)) bs cs, List.length_cons]
    ring

/-! ### The heatmap loop on two slice-valued axes -/

/-- The effect of the in-place mutation `current_y.filter_predicates.join
= Join.AND` on a slice. -/
def mutS (s : Slice) : Slice :=
  { s with filter_predicates := { s.filter_predicates with join := Join.AND } }

/-- The record produced by one heatmap cell when both channels are
slice-valued: the evaluator is consulted without any filter (chart.py
lines 297-301). -/
def cellRecBoth (E : Metric → String → Option FilterPredicateGroup → GroupMetric)
    (m : Metric) (model : String) (x y : Slice) : Record :=
  [("x_value", .str x.slice_name),
   ("fixed_value", pvOfMetric (E m model none).metric),
   ("y_value", .str y.slice_name),
   ("size", .int (E m model none).size)]

theorem heatInner_both_slices (E : Metric → String → Option FilterPredicateGroup → GroupMetric)
    (m : Metric) (model : String) (x : Slice) (ys : List Slice) :
    heatInner E m model true true (.slice x) (ys.map HAxis.slice) =
      some (ys.map (fun y => cellRecBoth E m model x y),
            ys.map (fun y => HAxis.slice (mutS y))) := by
  induction ys with
  | nil => rfl
  | cons y ys ih =>
    simp only [List.map_cons, heatInner]
    rw [show heatCell E m model true true (.slice x) (.slice y) =
          some (cellRecBoth E m model x y, .slice (mutS y)) from rfl, ih]
    rfl

theorem heatOuter_both_slices (E : Metric → String → Option FilterPredicateGroup → GroupMetric)
    (m : Metric) (model : String) (xs ys : List Slice) :
    heatOuter E m model true true (xs.map HAxis.slice) (ys.map HAxis.slice) =
      some (xs.flatMap (fun x => ys.map (fun y => cellRecBoth E m model x y)),
            if xs.isEmpty then ys.map HAxis.slice
            else ys.map (fun y => HAxis.slice (mutS y))) := by
  induction xs generalizing ys with
  | nil => rfl
  | cons x xs ih =>
    have hstep : ys.map (fun y => HAxis.slice (mutS y)) = (ys.map mutS).map HAxis.slice := by
      rw [List.map_map]; rfl
    have hrec : xs.flatMap (fun x' => (ys.map mutS).map (fun y => cellRecBoth E m model x' y)) =
        xs.flatMap (fun x' => ys.map (fun y => cellRecBoth E m model x' y)) := by
      apply congrArg
      funext x'
      rw [List.map_map]
      rfl
    have hstate :
        (if xs.isEmpty then (ys.map mutS).map HAxis.slice
         else (ys.map mutS).map (fun y => HAxis.slice (mutS y))) =
          ys.map (fun y => HAxis.slice (mutS y)) := by
      cases h : xs.isEmpty with
      | true => rw [if_pos rfl, List.map_map]; rfl
      | false => rw [if_neg (by simp), List.map_map]; rfl
    have h1 : heatOuter E m model true true ((x :: xs).map HAxis.slice) (ys.map HAxis.slice) =
        (heatOuter E m model true true (xs.map HAxis.slice)
            (ys.map (fun y => HAxis.slice (mutS y)))).bind
          (fun q => some (ys.map (fun y => cellRecBoth E m model x y) ++ q.1, q.2)) := by
      show (heatInner E m model true true (.slice x) (ys.map HAxis.slice)).bind
          (fun p => (heatOuter E m model true true (xs.map HAxis.slice) p.2).bind
            (fun q => some (p.1 ++ q.1, q.2))) = _
      rw [heatInner_both_slices]
      rfl
    rw [hstep] at h1
    rw [ih (ys.map mutS), Option.some_bind] at h1
    rw [h1, List.flatMap_cons, hrec, hstate, if_neg (by simp)]

/-- The heatmap loops produce no record and leave no state when the
y-axis list is empty: the inner loop body never runs. -/
theorem heatOuter_nil_y (E : Metric → String → Option FilterPredicateGroup → GroupMetric)
    (m : Metric) (model : String) (xSlice ySlice : Bool) (xs : List HAxis) :
    heatOuter E m model xSlice ySlice xs [] = some ([], []) := by
  induction xs with
  | nil => rfl
  | cons x xs ih =>
    show (heatInner E m model xSlice ySlice x []).bind
        (fun p => (heatOuter E m model xSlice ySlice xs p.2).bind
          (fun q => some (p.1 ++ q.1, q.2))) = _
    rw [show heatInner E m model xSlice ySlice x [] = some ([], []) from rfl,
      Option.some_bind, ih]
    rfl

/-- The slice list underlying a slice-valued heatmap axis. -/
def heatSlices (env : Env) (l : List HeatValue) : List Slice :=
  (slices env.sliceRows env.project (some (heatIds l))).1 ++
    (if l.contains (HeatValue.id (-1)) then [allInstancesSlice] else [])

theorem heatAxisValues_slices (env : Env) (l : List HeatValue) :
    heatAxisValues env true l = (heatSlices env l).map HAxis.slice := by
  cases h : l.contains (HeatValue.id (-1)) with
  | true => simp [heatAxisValues, heatSlices, h]
  | false => simp [heatAxisValues, heatSlices, h]

/-- Unpack membership in the result of `slices` with an explicit id
list. -/
theorem mem_slices_some (rows : List SliceRow) (proj : String) (ids : List Int) (s : Slice)
    (h : s ∈ (slices rows proj (some ids)).1) :
    ∃ r ∈ rows, r.project_uuid = proj ∧ ids.contains r.id = true ∧ s = rowToSlice r := by
  simp only [slices] at h
  by_cases hlen : ids.length = 0
  · rw [if_pos hlen] at h
    exact absurd h (List.not_mem_nil s)
  · rw [if_neg hlen] at h
    simp only [List.mem_map, List.mem_filter, Bool.and_eq_true, beq_iff_eq] at h
    obtain ⟨r, ⟨hr, hp, hc⟩, rfl⟩ := h
    exact ⟨r, hr, hp, hc, rfl⟩

/-- `slices` with an explicit id list returns nothing when no stored row
of the project carries a requested id. -/
theorem slices_some_eq_nil (rows : List SliceRow) (proj : String) (ids : List Int)
    (h : ∀ r ∈ rows, ¬(r.project_uuid = proj ∧ ids.contains r.id = true)) :
    (slices rows proj (some ids)).1 = [] := by
  simp only [slices]
  by_cases hlen : ids.length = 0
  · rw [if_pos hlen]
  · rw [if_neg hlen]
    have hfil : rows.filter (fun r => r.project_uuid == proj && ids.contains r.id) = [] := by
      rw [List.filter_eq_nil_iff]
      intro r hr
      simp only [Bool.and_eq_true, beq_iff_eq, not_and]
      intro hp hc
      exact h r hr ⟨hp, hc⟩
    rw [hfil]
    rfl

/-! ### Concrete fixtures used by the witnesses and counterexamples -/

/-- Leaf predicate: column "label" equals the text "a". -/
def predA : FilterElem := .pred "label" .EQUAL (.str "a") .OMITTED

/-- Leaf predicate: column "label" equals the text "b". -/
def predB : FilterElem := .pred "label" .EQUAL (.str "b") .OMITTED

/-- A two-row project data table: one row labelled "a", one labelled
"b". -/
def rowsAB : List Row := [[("label", CellV.str "a")], [("label", CellV.str "b")]]

/-- Stored slice "A" (id 1) of project "p": rows whose label is "a". -/
def sliceRowA : SliceRow := ⟨1, "A", none, "p", ⟨[predA], .OMITTED⟩⟩

/-- Stored slice "B" (id 2) of project "p": rows whose label is "b".
Slices A and B are mutually exclusive on `rowsAB`. -/
def sliceRowB : SliceRow := ⟨2, "B", none, "p", ⟨[predB], .OMITTED⟩⟩

/-- Stored slice "C" (id 3) of project "p" with an empty filter. -/
def sliceRowC : SliceRow := ⟨3, "C", none, "p", ⟨[], .OMITTED⟩⟩

/-- Environment of project "p" with an empty metric catalogue, the two
exclusive slices A and B, and the spec-modelled evaluator over
`rowsAB`. -/
def envAB : Env := ⟨"p", [], [sliceRowA, sliceRowB], specMetricMap rowsAB⟩

/-- HEATMAP chart with both channels slice-valued over the exclusive
slices A (x and y) and B (x and y). -/
def chartHm : Chart :=
  ⟨7, "hm", .HEATMAP, .heatmap ⟨[.id 1, .id 2], [.id 1, .id 2], "m1", 0, .SLICES, .SLICES⟩⟩

/-- The filter the specification intends for the heatmap cell (A, B):
slice A's group and slice B's group nested under a synthetic parent with
B's join set to AND (spec §4.2 and §4.4). -/
def interAB : FilterPredicateGroup :=
  ⟨[FilterElem.ofGroup ⟨[predA], .OMITTED⟩, FilterElem.ofGroup ⟨[predB], .AND⟩], .OMITTED⟩

/-- Environment of project "p" with one catalogue metric (id 5) and the
single stored slice A. -/
def envOne : Env := ⟨"p", [⟨5, "accuracy", "mean", ["score"]⟩], [sliceRowA], specMetricMap rowsAB⟩

/-- TABLE chart declaring the unknown metric id 99 and the sentinel
slice list [-1]. -/
def chartTab99 : Chart := ⟨2, "tab", .TABLE, .table ⟨[99], [-1], ["m1"], .SLICES, .SLICES⟩⟩

/-- BAR chart declaring the unknown slice id 99. -/
def chartBar99 : Chart := ⟨3, "bar", .BAR, .xc ⟨[99], 0, ["m1"], .SLICES, .MODELS⟩⟩

/-- Environment of project "p" with the three stored slices A, B, C. -/
def envABC : Env := ⟨"p", [], [sliceRowA, sliceRowB, sliceRowC], specMetricMap rowsAB⟩

/-- HEATMAP chart with two x slices and three y slices, both channels
slice-valued. -/
def chartHm23 : Chart :=
  ⟨5, "hm23", .HEATMAP, .heatmap ⟨[.id 1, .id 2], [.id 1, .id 2, .id 3], "m1", 0, .SLICES, .SLICES⟩⟩

/-- Environment with one stored slice for the BAR scenario of C7. -/
def envBar : Env := ⟨"p", [], [sliceRowA], specMetricMap rowsAB⟩

/-- The BAR chart of the C7 scenario: slices [-1], models m1 and m2, x
bound to MODELS, color bound to SLICES. -/
def chartBar : Chart := ⟨1, "bar", .BAR, .xc ⟨[-1], 0, ["m1", "m2"], .SLICES, .MODELS⟩⟩

/-- HEATMAP chart with a slice-valued x channel and a model-valued y
channel, both axis lists nonempty. -/
def chartHmMixed : Chart :=
  ⟨6, "hmmix", .HEATMAP, .heatmap ⟨[.id 1], [.label "m1"], "m1", 0, .SLICES, .MODELS⟩⟩

/-- HEATMAP chart with both channels slice-valued and an empty x-axis
list. -/
def chartHmEmptyX : Chart :=
  ⟨9, "hme", .HEATMAP, .heatmap ⟨[], [.id 1], "m1", 0, .SLICES, .SLICES⟩⟩

/-- A BAR chart carrying heatmap parameters (mismatched payload). -/
def chartMismatch : Chart := ⟨8, "mm", .BAR, .heatmap ⟨[], [], "m", 0, .SLICES, .SLICES⟩⟩

/-- Stored slice row whose persisted filter has join AND. -/
def rowW10 : SliceRow := ⟨4, "W", none, "p", ⟨[predA], Join.AND⟩⟩

/-- The join field of a heatmap axis value, when it is a slice. -/
def axisJoin : HAxis → Option Join
  | .slice s => some s.filter_predicates.join
  | .value _ => none

/-! ### Claims -/

/-- Claim C1 (code bug).  The claim: for a HEATMAP chart whose x and y
channels are both slice-valued, each (x,y) cell is evaluated under a
single filter that AND-intersects the two slices' predicate groups, so
two mutually exclusive slices give the off-diagonal cell size 0 and a
null fixed value.  The code (chart.py lines 295-301) instead mutates the
y slice's join to AND — a dead store — and then calls the evaluator with
NO filter at all, so every cell reports the metric over all rows.  On
project "p" with two rows and the mutually exclusive slices A and B,
every cell of the payload — the off-diagonal cells included — has size 2
(the whole table), whereas the intersection filter the claim describes
matches zero rows, as the second conjunct shows. -/
theorem C1_heatmap_both_slices_no_filter :
    heatmap_data envAB chartHm =
      some
        [[("x_value", .str "A"), ("fixed_value", .null), ("y_value", .str "A"), ("size", .int 2)],
         [("x_value", .str "A"), ("fixed_value", .null), ("y_value", .str "B"), ("size", .int 2)],
         [("x_value", .str "B"), ("fixed_value", .null), ("y_value", .str "A"), ("size", .int 2)],
         [("x_value", .str "B"), ("fixed_value", .null), ("y_value", .str "B"), ("size", .int 2)]] ∧
    specMetricMap rowsAB countMetric "m1" (some interAB) = { metric := none, size := 0 } :=
  ⟨rfl, rfl⟩

/-- Claim C2, counterexample.  The TABLE chart `chartTab99` declares the
metric id 99, which is absent from the catalogue of `envOne` (whose only
metric has id 5).  The claim says the strategy substitutes the count
pseudo-metric and evaluates with it — which, with one resolved slice and
one model, would produce one record — but the strategy resolves an empty
metric list and produces an empty payload: the unknown id is dropped,
not substituted. -/
theorem C2_counterexample :
    envOne.metricsTable.map Metric.id = [5] ∧
    selected_metrics envOne [99] = [] ∧
    table_data envOne chartTab99 = [] :=
  ⟨rfl, rfl, rfl⟩

/-- Claim C2 (amended): the single-metric strategies (XYC, heatmap)
substitute the sentinel count pseudo-metric for a metric id missing from
the catalogue; the list-metric strategies (table, beeswarm, radar)
filter the catalogue extended by the count sentinel against the declared
ids, so a declared -1 resolves to the count sentinel while any other
unknown id is silently dropped (no resolved metric carries it); no
strategy raises. -/
theorem C2_amended_metric_resolution :
    (∀ (env : Env) (i : Int), (∀ m ∈ env.metricsTable, m.id ≠ i) →
        resolve_metric env i = countMetric) ∧
    (∀ (env : Env) (ids : List Int), (-1 : Int) ∈ ids →
        countMetric ∈ selected_metrics env ids) ∧
    (∀ (env : Env) (ids : List Int) (j : Int), j ≠ -1 →
        (∀ m ∈ env.metricsTable, m.id ≠ j) →
        ∀ m ∈ selected_metrics env ids, m.id ≠ j) := by
  refine ⟨?_, ?_, ?_⟩
  · intro env i h
    unfold resolve_metric
    rw [List.find?_eq_none.mpr ?_]
    · rfl
    · intro m hm
      simpa using h m hm
  · intro env ids h
    simp only [selected_metrics, List.mem_filter, List.mem_append]
    refine ⟨Or.inr (List.mem_singleton.mpr rfl), ?_⟩
    simpa using h
  · intro env ids j hj h m hm
    rw [selected_metrics, List.mem_filter] at hm
    rcases List.mem_append.mp hm.1 with hcat | hcount
    · exact h m hcat
    · rw [List.mem_singleton] at hcount
      subst hcount
      intro e
      exact hj e.symm

/-- Claim C2, witness: the amended resolution behavior at concrete
inputs — the unknown id 99 resolves to the count metric in the
single-metric path, a declared -1 yields the count sentinel in the
list-metric path, and no metric resolved from the declaration [99]
carries id 99. -/
theorem C2_witness :
    resolve_metric envOne 99 = countMetric ∧
    countMetric ∈ selected_metrics envOne [-1] ∧
    ∀ m ∈ selected_metrics envOne [99], m.id ≠ 99 := by
  have h99 : ∀ m ∈ envOne.metricsTable, m.id ≠ 99 := by
    intro m hm
    rw [show envOne.metricsTable = [⟨5, "accuracy", "mean", ["score"]⟩] from rfl,
      List.mem_singleton] at hm
    subst hm
    decide
  exact ⟨C2_amended_metric_resolution.1 envOne 99 h99,
    C2_amended_metric_resolution.2.1 envOne [-1] (by decide),
    C2_amended_metric_resolution.2.2 envOne [99] 99 (by decide) h99⟩

/-- Claim C3, counterexample.  The BAR chart `chartBar99` declares the
slice id 99; the store of `envOne` has only the slice with id 1.  The
claim says the strategy substitutes the sentinel "all instances" slice
for the missing slice — which, with one declared model, would produce
one record — but the resolved slice list and the payload are empty: the
missing id is dropped, not substituted. -/
theorem C3_counterexample :
    envOne.sliceRows.map SliceRow.id = [1] ∧
    selected_slices envOne [99] = [] ∧
    xyc_data envOne chartBar99 = [] :=
  ⟨rfl, rfl, rfl⟩

/-- Claim C3 (amended): the sentinel "all instances" slice is
materialized exactly when the id -1 is among the declared ids (appended
once, after the catalogue matches); every other resolved slice comes
from a stored row of the project; a declared id with no stored match —
other than -1 — contributes no resolved slice at all. -/
theorem C3_amended_slice_resolution :
    (∀ (env : Env) (ids : List Int), ids.contains (-1 : Int) = true →
        allInstancesSlice ∈ selected_slices env ids) ∧
    (∀ (env : Env) (ids : List Int), ∀ s ∈ selected_slices env ids,
        s ∈ (slices env.sliceRows env.project (some ids)).1 ∨
          (s = allInstancesSlice ∧ ids.contains (-1 : Int) = true)) ∧
    (∀ (env : Env) (ids : List Int) (j : Int), j ≠ -1 →
        (∀ r ∈ env.sliceRows, ¬(r.project_uuid = env.project ∧ r.id = j)) →
        ∀ s ∈ selected_slices env ids, s.id ≠ j) := by
  refine ⟨?_, ?_, ?_⟩
  · intro env ids h
    unfold selected_slices
    rw [if_pos h]
    exact List.mem_append.mpr (Or.inr (List.mem_singleton.mpr rfl))
  · intro env ids s hs
    unfold selected_slices at hs
    rcases List.mem_append.mp hs with hl | hr
    · exact Or.inl hl
    · by_cases hc : ids.contains (-1 : Int) = true
      · rw [if_pos hc] at hr
        exact Or.inr ⟨List.mem_singleton.mp hr, hc⟩
      · rw [if_neg hc] at hr
        exact absurd hr (List.not_mem_nil s)
  · intro env ids j hj h s hs
    unfold selected_slices at hs
    rcases List.mem_append.mp hs with hl | hr
    · obtain ⟨r, hrm, hp, hc, rfl⟩ := mem_slices_some env.sliceRows env.project ids s hl
      intro e
      exact h r hrm ⟨hp, e⟩
    · by_cases hc : ids.contains (-1 : Int) = true
      · rw [if_pos hc] at hr
        rw [List.mem_singleton.mp hr]
        intro e
        exact hj e.symm
      · rw [if_neg hc] at hr
        exact absurd hr (List.not_mem_nil s)

/-- Claim C3, witness: the amended resolution behavior at concrete
inputs — a declared -1 materializes the sentinel slice, and no slice
resolved from the declaration [99] carries the id 99 when the store has
no such row. -/
theorem C3_witness :
    allInstancesSlice ∈ selected_slices envOne [-1] ∧
    ∀ s ∈ selected_slices envOne [99], s.id ≠ 99 :=
  ⟨C3_amended_slice_resolution.1 envOne [-1] (by decide),
   C3_amended_slice_resolution.2.2 envOne [99] 99 (by decide) (by decide)⟩

/-- Claim C4, counterexample.  Before the heatmap loops the resolved
y-axis slices of `chartHm` both have join OMITTED; after `heatmap_data`
runs, both have join AND: the strategy mutates the resolved slices'
predicate groups in place (chart.py line 296), contradicting the claim
that every resolved slice's predicate group — its join field included —
is unchanged. -/
theorem C4_counterexample :
    (heatAxisValues envAB true [HeatValue.id 1, HeatValue.id 2]).map axisJoin =
      [some Join.OMITTED, some Join.OMITTED] ∧
    (heatmap_run envAB chartHm).map (fun r => r.2.map axisJoin) =
      some [some Join.AND, some Join.AND] :=
  ⟨rfl, rfl⟩

/-- Claim C4 (amended): no strategy mutates the chart's parameters, and
the XYC, table, beeswarm and radar strategies leave the resolved slices
untouched; the heatmap strategy however, when both channels are
slice-valued and the x-axis list is nonempty, rewrites every resolved
y slice's predicate-group join to AND, leaving the slice's id, name,
folder and predicate list unchanged. -/
theorem C4_amended_heatmap_mutation :
    ∀ (E : Metric → String → Option FilterPredicateGroup → GroupMetric)
      (m : Metric) (model : String) (xs ys : List Slice),
      (heatOuter E m model true true (xs.map HAxis.slice) (ys.map HAxis.slice)).map Prod.snd =
        some (if xs.isEmpty then ys.map HAxis.slice
              else ys.map (fun y => HAxis.slice (mutS y))) ∧
      ∀ y : Slice, (mutS y).id = y.id ∧ (mutS y).slice_name = y.slice_name ∧
        (mutS y).folder_id = y.folder_id ∧
        (mutS y).filter_predicates.predicates = y.filter_predicates.predicates ∧
        (mutS y).filter_predicates.join = Join.AND := by
  intro E m model xs ys
  refine ⟨?_, fun y => ⟨rfl, rfl, rfl, rfl, rfl⟩⟩
  rw [heatOuter_both_slices]
  rfl

/-- Claim C5, counterexample.  The HEATMAP strategy does not emit one
record per element of metrics × slices × models: `chartHm23` resolves
one metric, declares one model, and resolves 2 x-axis slices and 3
y-axis slices (5 slices in total, 3 distinct), yet the payload has
6 = 2·3 records — one per (x,y) cell, x outer and y inner, not one per
(metric, slice, model) combination. -/
theorem C5_counterexample :
    (heatmap_data envABC chartHm23).map List.length = some 6 ∧
    (heatAxisValues envABC true [HeatValue.id 1, HeatValue.id 2]).length = 2 ∧
    (heatAxisValues envABC true [HeatValue.id 1, HeatValue.id 2, HeatValue.id 3]).length = 3 :=
  ⟨rfl, rfl, rfl⟩

/-- Claim C5 (amended): the XYC strategy emits exactly one record per
element of resolved slices × declared models (slice outer, model inner);
the table, beeswarm and radar strategies emit exactly one record per
element of resolved metrics × resolved slices × declared models (metric
outer, slice middle, model inner).  The heatmap strategy follows
neither: when both channels are slice-valued its payload is exactly one
record per (x slice, y slice) pair of the resolved axis lists, in
x-outer, y-inner order, with its single metric and single model (fifth
conjunct: the payload equals the map of the record builder over the
x × y cross product, whose order is x outer and y inner); when a channel
is not slice-valued the strategy fails with an attribute error as soon
as a cell is evaluated, i.e. whenever both resolved axis lists are
nonempty (sixth conjunct), and with an empty resolved axis there are no
cells and the payload is empty (seventh conjunct). -/
theorem C5_amended_cross_product :
    (∀ (env : Env) (cid : Int) (cn : String) (ty : ChartType) (p : XCParameters),
      xyc_data env ⟨cid, cn, ty, .xc p⟩ =
        (prod2 (selected_slices env p.slices) p.models).map
          (fun c => xycRecord p c.1 c.2
            (env.metric_map (resolve_metric env p.metric) c.2 (some c.1.filter_predicates))) ∧
      (xyc_data env ⟨cid, cn, ty, .xc p⟩).length =
        (selected_slices env p.slices).length * p.models.length) ∧
    (∀ (env : Env) (cid : Int) (cn : String) (ty : ChartType) (p : TableParameters),
      table_data env ⟨cid, cn, ty, .table p⟩ =
        (prod3 (selected_metrics env p.metrics) (selected_slices env p.slices) p.models).map
          (fun c => tableRecord p c.1 c.2.1 c.2.2
            (env.metric_map c.1 c.2.2 (some c.2.1.filter_predicates))) ∧
      (table_data env ⟨cid, cn, ty, .table p⟩).length =
        (selected_metrics env p.metrics).length *
          ((selected_slices env p.slices).length * p.models.length)) ∧
    (∀ (env : Env) (cid : Int) (cn : String) (ty : ChartType) (p : BeeswarmParameters),
      beeswarm_data env ⟨cid, cn, ty, .beeswarm p⟩ =
        (prod3 (selected_metrics env p.metrics) (selected_slices env p.slices) p.models).map
          (fun c => beeswarmRecord p c.1 c.2.1 c.2.2
            (env.metric_map c.1 c.2.2 (some c.2.1.filter_predicates))) ∧
      (beeswarm_data env ⟨cid, cn, ty, .beeswarm p⟩).length =
        (selected_metrics env p.metrics).length *
          ((selected_slices env p.slices).length * p.models.length)) ∧
    (∀ (env : Env) (cid : Int) (cn : String) (ty : ChartType) (p : RadarParameters),
      radar_data env ⟨cid, cn, ty, .radar p⟩ =
        (prod3 (selected_metrics env p.metrics) (selected_slices env p.slices) p.models).map
          (fun c => radarRecord p c.1 c.2.1 c.2.2
            (env.metric_map c.1 c.2.2 (some c.2.1.filter_predicates))) ∧
      (radar_data env ⟨cid, cn, ty, .radar p⟩).length =
        (selected_metrics env p.metrics).length *
          ((selected_slices env p.slices).length * p.models.length)) ∧
    (∀ (env : Env) (cid : Int) (cn : String) (ty : ChartType)
      (xv yv : List HeatValue) (model : String) (mid : Int),
      heatmap_data env ⟨cid, cn, ty, .heatmap ⟨xv, yv, model, mid, .SLICES, .SLICES⟩⟩ =
        some ((prod2 (heatSlices env xv) (heatSlices env yv)).map
          (fun c => cellRecBoth env.metric_map (resolve_metric env mid) model c.1 c.2)) ∧
      (heatmap_data env ⟨cid, cn, ty, .heatmap ⟨xv, yv, model, mid, .SLICES, .SLICES⟩⟩).map
          List.length =
        some ((heatAxisValues env true xv).length * (heatAxisValues env true yv).length)) ∧
    (∀ (env : Env) (cid : Int) (cn : String) (ty : ChartType) (p : HeatmapParameters),
      ¬(p.x_channel = SlicesOrModels.SLICES ∧ p.y_channel = SlicesOrModels.SLICES) →
      heatAxisValues env (p.x_channel == SlicesOrModels.SLICES) p.x_values ≠ [] →
      heatAxisValues env (p.y_channel == SlicesOrModels.SLICES) p.y_values ≠ [] →
      heatmap_data env ⟨cid, cn, ty, .heatmap p⟩ = none) ∧
    (∀ (env : Env) (cid : Int) (cn : String) (ty : ChartType) (p : HeatmapParameters),
      (heatAxisValues env (p.x_channel == SlicesOrModels.SLICES) p.x_values = [] ∨
        heatAxisValues env (p.y_channel == SlicesOrModels.SLICES) p.y_values = []) →
      heatmap_data env ⟨cid, cn, ty, .heatmap p⟩ = some []) := by
  refine ⟨?_, ?_, ?_, ?_, ?_, ?_, ?_⟩
  · intro env cid cn ty p
    have heq : xyc_data env ⟨cid, cn, ty, .xc p⟩ =
        (prod2 (selected_slices env p.slices) p.models).map
          (fun c => xycRecord p c.1 c.2
            (env.metric_map (resolve_metric env p.metric) c.2 (some c.1.filter_predicates))) :=
      (prod2_map _ _ _).symm
    exact ⟨heq, by rw [heq, List.length_map, prod2_length]⟩
  · intro env cid cn ty p
    have heq : table_data env ⟨cid, cn, ty, .table p⟩ =
        (prod3 (selected_metrics env p.metrics) (selected_slices env p.slices) p.models).map
          (fun c => tableRecord p c.1 c.2.1 c.2.2
            (env.metric_map c.1 c.2.2 (some c.2.1.filter_predicates))) :=
      (prod3_map _ _ _ _).symm
    exact ⟨heq, by rw [heq, List.length_map, prod3_length]⟩
  · intro env cid cn ty p
    have heq : beeswarm_data env ⟨cid, cn, ty, .beeswarm p⟩ =
        (prod3 (selected_metrics env p.metrics) (selected_slices env p.slices) p.models).map
          (fun c => beeswarmRecord p c.1 c.2.1 c.2.2
            (env.metric_map c.1 c.2.2 (some c.2.1.filter_predicates))) :=
      (prod3_map _ _ _ _).symm
    exact ⟨heq, by rw [heq, List.length_map, prod3_length]⟩
  · intro env cid cn ty p
    have heq : radar_data env ⟨cid, cn, ty, .radar p⟩ =
        (prod3 (selected_metrics env p.metrics) (selected_slices env p.slices) p.models).map
          (fun c => radarRecord p c.1 c.2.1 c.2.2
            (env.metric_map c.1 c.2.2 (some c.2.1.filter_predicates))) :=
      (prod3_map _ _ _ _).symm
    exact ⟨heq, by rw [heq, List.length_map, prod3_length]⟩
  · intro env cid cn ty xv yv model mid
    have heq : heatmap_data env ⟨cid, cn, ty, .heatmap ⟨xv, yv, model, mid, .SLICES, .SLICES⟩⟩ =
        some ((prod2 (heatSlices env xv) (heatSlices env yv)).map
          (fun c => cellRecBoth env.metric_map (resolve_metric env mid) model c.1 c.2)) := by
      show (heatOuter env.metric_map (resolve_metric env mid) model true true
          (heatAxisValues env true xv) (heatAxisValues env true yv)).map Prod.fst = _
      rw [heatAxisValues_slices env xv, heatAxisValues_slices env yv, heatOuter_both_slices,
        prod2_map (fun x y => cellRecBoth env.metric_map (resolve_metric env mid) model x y)]
      rfl
    refine ⟨heq, ?_⟩
    rw [heq, heatAxisValues_slices env xv, heatAxisValues_slices env yv]
    simp only [Option.map_some', List.length_map, prod2_length]
  · intro env cid cn ty p hmix hx hy
    rcases p with ⟨xv, yv, model, mid, xch, ych⟩
    cases xch <;> cases ych
    · exact absurd ⟨rfl, rfl⟩ hmix
    · -- x SLICES, y MODELS
      replace hx : heatAxisValues env true xv ≠ [] := hx
      replace hy : heatAxisValues env false yv ≠ [] := hy
      show (heatOuter env.metric_map (resolve_metric env mid) model true false
          (heatAxisValues env true xv) (heatAxisValues env false yv)).map Prod.fst = none
      cases hs : heatSlices env xv with
      | nil => exact absurd (by rw [heatAxisValues_slices env xv, hs]; rfl) hx
      | cons s srest =>
        cases yv with
        | nil => exact absurd rfl hy
        | cons v vrest =>
          rw [heatAxisValues_slices env xv, hs]
          rfl
    · -- x MODELS, y SLICES
      replace hx : heatAxisValues env false xv ≠ [] := hx
      replace hy : heatAxisValues env true yv ≠ [] := hy
      show (heatOuter env.metric_map (resolve_metric env mid) model false true
          (heatAxisValues env false xv) (heatAxisValues env true yv)).map Prod.fst = none
      cases xv with
      | nil => exact absurd rfl hx
      | cons v vrest =>
        cases hs : heatSlices env yv with
        | nil => exact absurd (by rw [heatAxisValues_slices env yv, hs]; rfl) hy
        | cons s srest =>
          rw [heatAxisValues_slices env yv, hs]
          rfl
    · -- x MODELS, y MODELS
      replace hx : heatAxisValues env false xv ≠ [] := hx
      replace hy : heatAxisValues env false yv ≠ [] := hy
      cases xv with
      | nil => exact absurd rfl hx
      | cons v vrest =>
        cases yv with
        | nil => exact absurd rfl hy
        | cons w wrest => rfl
  · intro env cid cn ty p h
    rcases h with h | h
    · show (heatOuter env.metric_map (resolve_metric env p.metric) p.model
          (p.x_channel == SlicesOrModels.SLICES) (p.y_channel == SlicesOrModels.SLICES)
          (heatAxisValues env (p.x_channel == SlicesOrModels.SLICES) p.x_values)
          (heatAxisValues env (p.y_channel == SlicesOrModels.SLICES) p.y_values)).map
            Prod.fst = some []
      rw [h]
      rfl
    · show (heatOuter env.metric_map (resolve_metric env p.metric) p.model
          (p.x_channel == SlicesOrModels.SLICES) (p.y_channel == SlicesOrModels.SLICES)
          (heatAxisValues env (p.x_channel == SlicesOrModels.SLICES) p.x_values)
          (heatAxisValues env (p.y_channel == SlicesOrModels.SLICES) p.y_values)).map
            Prod.fst = some []
      rw [h, heatOuter_nil_y]
      rfl

/-- Claim C5, witness: the hypotheses of the heatmap conjuncts
discharged at concrete inputs — a mixed-channel heatmap with both axis
lists nonempty fails (none), and a both-slices heatmap with an empty
x-axis list yields the empty payload. -/
theorem C5_witness :
    heatmap_data envAB chartHmMixed = none ∧
    heatmap_data envAB chartHmEmptyX = some [] := by
  constructor
  · exact C5_amended_cross_product.2.2.2.2.2.1 envAB 6 "hmmix" .HEATMAP
      ⟨[.id 1], [.label "m1"], "m1", 0, .SLICES, .MODELS⟩
      (fun hc => SlicesOrModels.noConfusion hc.2)
      (List.cons_ne_nil _ _)
      (List.cons_ne_nil _ _)
  · exact C5_amended_cross_product.2.2.2.2.2.2 envAB 9 "hme" .HEATMAP
      ⟨[], [.id 1], "m1", 0, .SLICES, .SLICES⟩
      (Or.inl rfl)

/-- Claim C6 (confirmed): the dispatcher maps BAR and LINE to the XYC
strategy, TABLE to the table strategy, BEESWARM to the beeswarm
strategy, RADAR to the radar strategy and HEATMAP to the heatmap
strategy; its final branch returns the empty payload for any chart type
not matched above (with the chart-type enum of the data model, every
type is matched, so that branch is the soft-fail reserve for future
types). -/
theorem C6_dispatcher :
    ∀ (env : Env) (c : Chart),
      chart_data env c =
        match c.type with
        | .BAR => some (xyc_data env c)
        | .LINE => some (xyc_data env c)
        | .TABLE => some (table_data env c)
        | .BEESWARM => some (beeswarm_data env c)
        | .RADAR => some (radar_data env c)
        | .HEATMAP => heatmap_data env c := by
  intro env c
  rcases c with ⟨cid, cn, ty, params⟩
  cases ty <;> rfl

/-- Claim C7 (confirmed): a BAR chart with declared slices [-1], models
m1 and m2, x channel bound to MODELS and color channel bound to SLICES
produces exactly two records, with x values m1 and m2 and color value
"All instances" on both — provided the project's slice store holds no
row with the sentinel id -1 (the sentinel is synthetic and never
stored). -/
theorem C7_bar_scenario :
    ∀ (env : Env) (cid mid : Int) (cn : String),
      (∀ r ∈ env.sliceRows, ¬(r.project_uuid = env.project ∧ r.id = -1)) →
      (xyc_data env ⟨cid, cn, .BAR, .xc ⟨[-1], mid, ["m1", "m2"], .SLICES, .MODELS⟩⟩).map
          (fun r => (List.lookup "x_value" r, List.lookup "color_value" r)) =
        [(some (PValue.str "m1"), some (PValue.str "All instances")),
         (some (PValue.str "m2"), some (PValue.str "All instances"))] := by
  intro env cid mid cn h
  have hnil : (slices env.sliceRows env.project (some [-1])).1 = [] := by
    apply slices_some_eq_nil
    intro r hr
    intro hand
    apply h r hr
    refine ⟨hand.1, ?_⟩
    have := hand.2
    simpa using this
  have hsel : selected_slices env [-1] = [allInstancesSlice] := by
    unfold selected_slices
    rw [hnil]
    rfl
  calc (xyc_data env ⟨cid, cn, .BAR, .xc ⟨[-1], mid, ["m1", "m2"], .SLICES, .MODELS⟩⟩).map
          (fun r => (List.lookup "x_value" r, List.lookup "color_value" r))
      = ((selected_slices env [-1]).flatMap (fun s =>
          ["m1", "m2"].map (fun model =>
            xycRecord ⟨[-1], mid, ["m1", "m2"], .SLICES, .MODELS⟩ s model
              (env.metric_map (resolve_metric env mid) model
                (some s.filter_predicates))))).map
          (fun r => (List.lookup "x_value" r, List.lookup "color_value" r)) := rfl
    _ = _ := by rw [hsel]; rfl

/-- Claim C7, witness: the scenario evaluated in the concrete
environment `envBar`. -/
theorem C7_witness :
    (xyc_data envBar chartBar).map
        (fun r => (List.lookup "x_value" r, List.lookup "color_value" r)) =
      [(some (PValue.str "m1"), some (PValue.str "All instances")),
       (some (PValue.str "m2"), some (PValue.str "All instances"))] :=
  C7_bar_scenario envBar 1 0 "bar" (by decide)

/-- Claim C8 (confirmed): whenever a chart's parameter payload is not of
the type expected by the strategy its chart type dispatches to, the
dispatcher returns the empty payload — for every environment, so no
catalogue lookup and no evaluator call can influence the result. -/
theorem C8_mismatched_parameters :
    ∀ (env : Env) (c : Chart),
      paramsMatch c.type c.parameters = false → chart_data env c = some [] := by
  intro env c h
  rcases c with ⟨cid, cn, ty, params⟩
  cases ty <;> cases params <;> first | rfl | simp [paramsMatch] at h

/-- Claim C8, witness: a BAR chart carrying heatmap parameters yields
the empty payload. -/
theorem C8_witness : chart_data envAB chartMismatch = some [] :=
  C8_mismatched_parameters envAB chartMismatch (by rfl)

/-- Claim C9 (confirmed): the slice-catalogue lookup returns the empty
list without issuing any store query when called with an explicit empty
id list (query count 0), and with no id list it issues one query and
returns exactly the slices built from the project's stored rows. -/
theorem C9_slices_empty_and_all :
    ∀ (rows : List SliceRow) (project : String),
      slices rows project (some []) = ([], 0) ∧
      (slices rows project none).2 = 1 ∧
      ∀ s : Slice, s ∈ (slices rows project none).1 ↔
        ∃ r ∈ rows, r.project_uuid = project ∧ s = rowToSlice r := by
  intro rows project
  refine ⟨rfl, rfl, fun s => ?_⟩
  simp only [slices, List.mem_map, List.mem_filter, beq_iff_eq]
  constructor
  · rintro ⟨r, ⟨hr, hp⟩, rfl⟩
    exact ⟨r, hr, hp, rfl⟩
  · rintro ⟨r, hr, hp, rfl⟩
    exact ⟨r, ⟨hr, hp⟩, rfl⟩

/-- Claim C10 (confirmed): every slice returned by the catalogue lookup
has a root predicate group whose join is OMITTED, whatever join was
stored with the persisted filter. -/
theorem C10_slices_join_omitted :
    ∀ (rows : List SliceRow) (project : String) (ids : Option (List Int)) (s : Slice),
      s ∈ (slices rows project ids).1 → s.filter_predicates.join = Join.OMITTED := by
  intro rows project ids s hs
  cases ids with
  | none =>
    simp only [slices, List.mem_map] at hs
    obtain ⟨r, -, rfl⟩ := hs
    rfl
  | some l =>
    obtain ⟨r, -, -, -, rfl⟩ := mem_slices_some rows project l s hs
    rfl

/-- Claim C10, witness: a stored row whose persisted filter has join AND
comes back with join OMITTED. -/
theorem C10_witness :
    rowToSlice rowW10 ∈ (slices [rowW10] "p" none).1 ∧
    rowW10.filter.join = Join.AND ∧
    (rowToSlice rowW10).filter_predicates.join = Join.OMITTED := by
  have hmem : rowToSlice rowW10 ∈ (slices [rowW10] "p" none).1 :=
    List.mem_singleton.mpr rfl
  exact ⟨hmem, rfl, C10_slices_join_omitted [rowW10] "p" none (rowToSlice rowW10) hmem⟩

end ZenoHub
